import Mathlib

/-!
# Verification of the places_bot guided-dialog core

Shallow embedding, in Lean 4, of the behaviours of `bot.py`, `database.py`
and `utils.py` that the specification's testable properties talk about:

* the TTL cache `SimpleCache` (utils.py);
* the expense wizard handlers and `save_expense` / `Database.add_expense`
  (bot.py, database.py);
* the place wizard's name / coordinate / cancel handlers and `save_place`
  (bot.py);
* the tips wizard's hours / card handlers (bot.py);
* the recurring-reminder due computation `Database.get_due_reminders`
  (database.py) and the payroll-report tick `check_and_send_reminders`
  (bot.py).

Python machine details are embedded as follows: `float(...)` on the plain
decimal strings the handlers feed it is modelled exactly as a scaled
decimal `num / 10 ^ exp` (`PyFloat`), and `int(...)` over `ℤ` — the
handlers only compare these values against small integer bounds and store
them, never perform float arithmetic, so the model is exact for every
property below;
`datetime(y, m, d)` is modelled by its documented validity condition
(proleptic Gregorian calendar, year 1..9999); `str.replace`, `str.strip`,
`str.split` are re-implemented over `List Char`.
-/

namespace PlacesBot

/-! ## Python string primitives -/

/-- Whitespace as stripped by Python's `str.strip()` / `float()` / `int()`
(the ASCII part, which is all the bot's inputs use). -/
def isWs (c : Char) : Bool :=
  c = ' ' || c = '\t' || c = '\n' || c = '\r' || c = '\x0b' || c = '\x0c'

/-- Python `s.strip()` on a character list. -/
def pyStrip (cs : List Char) : List Char :=
  ((cs.dropWhile isWs).reverse.dropWhile isWs).reverse

/-- Python `s.replace(a, b)` for one-character `a`, `b` (the only uses in
the source replace `','` by `'.'` or by `' '`). -/
def pyReplaceChar (s : String) (a b : Char) : String :=
  ⟨s.data.map (fun c => if c = a then b else c)⟩

/-- Python `s.replace(a, '')` for a one-character `a` (the wishlist price
parse removes spaces this way). -/
def pyRemoveChar (s : String) (a : Char) : String :=
  ⟨s.data.filter (fun c => c ≠ a)⟩

/-- Python `s.split(sep)` for a one-character separator: splits at every
occurrence, keeping empty pieces (so the result is always nonempty). -/
def splitOnCharAux (sep : Char) : List Char → List Char → List (List Char)
  | [], acc => [acc.reverse]
  | c :: rest, acc =>
      if c = sep then acc.reverse :: splitOnCharAux sep rest []
      else splitOnCharAux sep rest (c :: acc)

def splitOnChar (cs : List Char) (sep : Char) : List (List Char) :=
  splitOnCharAux sep cs []

/-- Python `s.split()` (no separator): split on whitespace runs, dropping
empty pieces. -/
def pySplitWs (cs : List Char) : List (List Char) :=
  (splitOnChar (cs.map (fun c => if isWs c then ' ' else c)) ' ').filter (· ≠ [])

/-- Value of a digit string (most significant first). -/
def digitsVal (cs : List Char) : ℕ :=
  cs.foldl (fun a c => a * 10 + (c.toNat - 48)) 0

/-- The value a Python `float(...)` call produced, kept exact as the
scaled decimal `num / 10 ^ exp`.  The handlers only ever compare such a
value against a small integer bound (0, ±90, ±180) and store it, which
the comparisons below capture exactly. -/
structure PyFloat where
  num : ℤ
  exp : ℕ
deriving DecidableEq, Repr

namespace PyFloat

/-- The rational value represented (used in statements). -/
def toRat (x : PyFloat) : ℚ := (x.num : ℚ) / (10 : ℚ) ^ x.exp

/-- The float comparison `x < n` against an integer bound `n`. -/
def ltInt (x : PyFloat) (n : ℤ) : Bool := x.num < n * (10 : ℤ) ^ x.exp

/-- The float comparison `x <= n` against an integer bound `n`. -/
def leInt (x : PyFloat) (n : ℤ) : Bool := x.num ≤ n * (10 : ℤ) ^ x.exp

/-- The float comparison `n <= x` against an integer bound `n`. -/
def geInt (x : PyFloat) (n : ℤ) : Bool := n * (10 : ℤ) ^ x.exp ≤ x.num

end PyFloat

/-- Python `float(s)` on an (already sign-stripped) plain decimal literal:
`digits`, `digits.digits`, `digits.` or `.digits`.  Returns `none` where
`float` raises `ValueError`. -/
def pyFloatCore (cs : List Char) : Option PyFloat :=
  let intPart := cs.takeWhile Char.isDigit
  let rest := cs.dropWhile Char.isDigit
  match rest with
  | [] => if intPart.isEmpty then none else some ⟨(digitsVal intPart : ℤ), 0⟩
  | c :: frac =>
      if c = '.' && frac.all Char.isDigit && !(intPart.isEmpty && frac.isEmpty) then
        some ⟨(digitsVal intPart * 10 ^ frac.length + digitsVal frac : ℤ), frac.length⟩
      else none

/-- Python `float(s)`: strip whitespace, optional sign, decimal literal. -/
def pyFloat (s : String) : Option PyFloat :=
  match pyStrip s.data with
  | '-' :: rest => (pyFloatCore rest).map (fun x => ⟨-x.num, x.exp⟩)
  | '+' :: rest => pyFloatCore rest
  | cs => pyFloatCore cs

/-- Python `int(s)` without sign: nonempty digit string. -/
def pyIntCore (cs : List Char) : Option ℤ :=
  if !cs.isEmpty && cs.all Char.isDigit then some (digitsVal cs : ℤ) else none

/-- Python `int(s)`: strip whitespace, optional sign, digits.  Returns
`none` where `int` raises `ValueError`. -/
def pyInt (cs : List Char) : Option ℤ :=
  match pyStrip cs with
  | '-' :: rest => (pyIntCore rest).map Neg.neg
  | '+' :: rest => pyIntCore rest
  | cs' => pyIntCore cs'

/-- Python `str.capitalize()` (ASCII case mapping): first character
uppercased, the rest lowercased. -/
def pyCapitalize (s : String) : String :=
  match s.data with
  | [] => ""
  | c :: rest => ⟨c.toUpper :: rest.map Char.toLower⟩

/-- Python substring containment `pattern in key`. -/
def strContainsSub (key pattern : String) : Bool :=
  go pattern.data key.data
where
  go (p : List Char) : List Char → Bool
    | [] => p.isEmpty
    | c :: rest => p.isPrefixOf (c :: rest) || go p rest

/-! ## `SimpleCache` (utils.py, lines 14-41)

The cache dictionary is an association list of
`(key, (value, timestamp))`; `time.time()` is passed in explicitly as an
integer-valued clock.  `Database`-cached values in the bot are
heterogeneous; every claim only stores integers, so values are `ℤ`. -/

structure SimpleCache where
  cache : List (String × ℤ × ℤ)
  ttl : ℤ
deriving DecidableEq, Repr

namespace SimpleCache

/-- `SimpleCache(ttl_seconds)` — fresh empty cache. -/
def mk' (ttl_seconds : ℤ) : SimpleCache := ⟨[], ttl_seconds⟩

/-- Dictionary lookup `self.cache[key]` / `key in self.cache`. -/
def lookup (c : SimpleCache) (key : String) : Option (ℤ × ℤ) :=
  (c.cache.find? (fun e => e.1 = key)).map Prod.snd

/-- `del self.cache[key]`. -/
def erase (c : SimpleCache) (key : String) : SimpleCache :=
  { c with cache := c.cache.filter (fun e => e.1 ≠ key) }

/-- `get(key)` at clock `now`: hit iff the entry exists and
`now - timestamp < ttl`; an expired entry is deleted (lazy eviction).
Returns the result together with the cache after the read. -/
def get (c : SimpleCache) (key : String) (now : ℤ) : Option ℤ × SimpleCache :=
  match c.lookup key with
  | none => (none, c)
  | some (value, timestamp) =>
      if now - timestamp < c.ttl then (some value, c)
      else (none, c.erase key)

/-- `set(key, value)` at clock `now`: overwrite and reset the timestamp. -/
def set (c : SimpleCache) (key : String) (value : ℤ) (now : ℤ) : SimpleCache :=
  { c with cache := (key, value, now) :: c.cache.filter (fun e => e.1 ≠ key) }

/-- `clear(pattern)`: delete every entry whose key contains `pattern` as a
substring; `clear()` (pattern `none`) empties the cache. -/
def clear (c : SimpleCache) (pattern : Option String) : SimpleCache :=
  match pattern with
  | some p => { c with cache := c.cache.filter (fun e => ¬ strContainsSub e.1 p) }
  | none => { c with cache := [] }

/-- Key membership after the dust settles (used to state claims). -/
def hasKey (c : SimpleCache) (key : String) : Bool :=
  (c.lookup key).isSome

end SimpleCache

/-! ## Calendar arithmetic (`datetime(y, m, d)` validity) -/

/-- Gregorian leap-year test (Python's `calendar.isleap` /
`datetime` rule). -/
def isLeapYear (y : ℤ) : Bool :=
  y % 4 = 0 && (y % 100 ≠ 0 || y % 400 = 0)

/-- Days of a month in the proleptic Gregorian calendar (the rule
`datetime.datetime` constructs dates with). -/
def gregorianDaysInMonth (y m : ℤ) : ℤ :=
  if m = 2 then (if isLeapYear y then 29 else 28)
  else if m = 4 ∨ m = 6 ∨ m = 9 ∨ m = 11 then 30
  else 31

/-- A concrete calendar date, as held by a Python `datetime` (date part). -/
structure PyDate where
  year : ℤ
  month : ℤ
  day : ℤ
deriving DecidableEq, Repr

/-- `datetime(y, m, d)`: succeeds exactly when the arguments form a real
proleptic-Gregorian calendar date with year in `MINYEAR..MAXYEAR`
(1..9999); raises `ValueError` (here: `none`) otherwise. -/
def mkDatetime (y m d : ℤ) : Option PyDate :=
  if 1 ≤ y ∧ y ≤ 9999 ∧ 1 ≤ m ∧ m ≤ 12 ∧ 1 ≤ d ∧ d ≤ gregorianDaysInMonth y m then
    some ⟨y, m, d⟩
  else none

/-- Zero-pad to 2 digits (`%d` / `%m`); arguments are 1..31 / 1..12. -/
def pad2 (n : ℤ) : String :=
  if n < 10 then "0" ++ toString n else toString n

/-- Zero-pad to 4 digits (`%Y`). -/
def pad4 (n : ℤ) : String :=
  if n < 10 then "000" ++ toString n
  else if n < 100 then "00" ++ toString n
  else if n < 1000 then "0" ++ toString n
  else toString n

/-- `d.strftime('%d.%m.%Y')`. -/
def formatDate (d : PyDate) : String :=
  pad2 d.day ++ "." ++ pad2 d.month ++ "." ++ pad4 d.year

/-! ## Sentinels (reply-keyboard button texts matched in the handlers) -/

def cancelText : String := "❌ Отмена"
def skipText : String := "⏭ Пропустить"
def todayText : String := "📅 Сегодня"
def enterDateText : String := "📆 Ввести дату"
def addNoteText : String := "✍️ Добавить заметку"

/-! ## The expense wizard (bot.py, lines 2521-2727)

`AddExpenseStates`, the per-state message handlers, `save_expense` and
`Database.add_expense`.  A handler's effect is on the pair
(FSM session, `user_expense_data[uid]` entry); `none` in either slot
means "cleared" / "key deleted".  Message sending is out of scope. -/

inductive ExpenseState where
  | waiting_for_category
  | waiting_for_name
  | waiting_for_amount
  | waiting_for_date_choice
  | waiting_for_date
  | waiting_for_note_choice
  | waiting_for_note
deriving DecidableEq, Repr

/-- The draft dictionary `user_expense_data[uid]`: a field is `none` when
its key is absent.  `note` maps to `some none` when the key is present
with value `None` (the skip sentinel's explicit absence). -/
structure ExpenseDraft where
  category : Option String := none
  name : Option String := none
  amount : Option PyFloat := none
  expense_date : Option String := none
  note : Option (Option String) := none
deriving DecidableEq, Repr

/-- FSM session (`none` = `state.clear()`) plus draft-store entry
(`none` = `del user_expense_data[uid]`). -/
structure ExpenseWizard where
  session : Option ExpenseState
  draft : Option ExpenseDraft
deriving DecidableEq, Repr

/-- The row as handed to the persistence gateway by `save_expense`. -/
structure ExpenseRecord where
  user_id : ℕ
  category : String
  name : String
  amount : PyFloat
  expense_date : String
  note : Option String
deriving DecidableEq, Repr

namespace Database

/-- `Database.add_expense` (database.py, lines 753-765): the whole body is
wrapped in `try/except Exception`; when the underlying `INSERT` raises
(`dbRaises`), the exception is logged and swallowed and the function
returns `None`; otherwise it returns the new row id. -/
def add_expense (dbRaises : Bool) (rowId : ℕ) : Option ℕ :=
  if dbRaises then none else some rowId

end Database

/-- `save_expense` (bot.py, lines 2683-2727): reads the draft fields
(`[]`-access raises `KeyError` — outer `none` — if one is missing;
`note` is read with `.get`, defaulting to `None`), calls
`db.add_expense`, then unconditionally `state.clear()` and
`del user_expense_data[uid]`.  Returns the resulting wizard pair, the id
returned by the gateway, and the record that was handed to it. -/
def save_expense (dbRaises : Bool) (rowId uid : ℕ) (d : ExpenseDraft) :
    Option (ExpenseWizard × Option ℕ × ExpenseRecord) :=
  match d.category, d.name, d.amount, d.expense_date with
  | some category, some name, some amount, some expense_date =>
      let note : Option String := d.note.join
      let expense_id := Database.add_expense dbRaises rowId
      some (⟨none, none⟩, expense_id, ⟨uid, category, name, amount, expense_date, note⟩)
  | _, _, _, _ => none

/-- `process_expense_category` (bot.py, lines 2531-2545). -/
def process_expense_category (d : ExpenseDraft) (text : String) : ExpenseWizard :=
  if text = cancelText then ⟨none, none⟩
  else ⟨some .waiting_for_name, some { d with category := some text }⟩

/-- `process_expense_name` (bot.py, lines 2547-2561). -/
def process_expense_name (d : ExpenseDraft) (text : String) : ExpenseWizard :=
  if text = cancelText then ⟨none, none⟩
  else ⟨some .waiting_for_amount, some { d with name := some (pyCapitalize text) }⟩

/-- `process_expense_amount` (bot.py, lines 2563-2586): comma is replaced
by a dot before `float(...)`; negative amounts and parse failures
re-prompt without touching session or draft. -/
def process_expense_amount (d : ExpenseDraft) (text : String) : ExpenseWizard :=
  if text = cancelText then ⟨none, none⟩
  else
    match pyFloat (pyReplaceChar text ',' '.') with
    | none => ⟨some .waiting_for_amount, some d⟩
    | some amount =>
        if amount.ltInt 0 then ⟨some .waiting_for_amount, some d⟩
        else ⟨some .waiting_for_date_choice, some { d with amount := some amount }⟩

/-- `process_expense_date_choice` (bot.py, lines 2588-2613). -/
def process_expense_date_choice (today : PyDate) (d : ExpenseDraft) (text : String) :
    ExpenseWizard :=
  if text = cancelText then ⟨none, none⟩
  else if text = todayText then
    ⟨some .waiting_for_note_choice, some { d with expense_date := some (formatDate today) }⟩
  else if text = enterDateText then ⟨some .waiting_for_date, some d⟩
  else ⟨some .waiting_for_date_choice, some d⟩

/-- The date-parsing part of `process_expense_date` (bot.py, lines
2624-2634): `text.strip().split('.')`; two pieces mean `DD.MM` with the
current year substituted, three mean `DD.MM.YYYY`; each piece goes
through `int(...)` and the result through `datetime(...)`, any failure
raising (`none`). -/
def parse_ddmm_date (currentYear : ℤ) (text : String) : Option PyDate :=
  match splitOnChar (pyStrip text.data) '.' with
  | [d, m] => do
      let dd ← pyInt d
      let mm ← pyInt m
      mkDatetime currentYear mm dd
  | [d, m, y] => do
      let yy ← pyInt y
      let mm ← pyInt m
      let dd ← pyInt d
      mkDatetime yy mm dd
  | _ => none

/-- `process_expense_date` (bot.py, lines 2615-2648): on parse failure the
handler answers and returns — same state, draft untouched; on success it
stores `strftime('%d.%m.%Y')` of the constructed date and advances. -/
def process_expense_date (currentYear : ℤ) (d : ExpenseDraft) (text : String) :
    ExpenseWizard :=
  if text = cancelText then ⟨none, none⟩
  else
    match parse_ddmm_date currentYear text with
    | none => ⟨some .waiting_for_date, some d⟩
    | some dt =>
        ⟨some .waiting_for_note_choice, some { d with expense_date := some (formatDate dt) }⟩

/-- `process_expense_note_choice` (bot.py, lines 2650-2669): the skip
sentinel stores `note = None` (`some none` here) and commits via
`save_expense`.  The second component of the result carries the commit
outcome when a commit happened. -/
def process_expense_note_choice (dbRaises : Bool) (rowId uid : ℕ) (d : ExpenseDraft)
    (text : String) : Option (ExpenseWizard × Option (Option ℕ × ExpenseRecord)) :=
  if text = cancelText then some (⟨none, none⟩, none)
  else if text = skipText then
    (save_expense dbRaises rowId uid { d with note := some none }).map
      (fun r => (r.1, some r.2))
  else if text = addNoteText then some (⟨some .waiting_for_note, some d⟩, none)
  else some (⟨some .waiting_for_note_choice, some d⟩, none)

/-- `process_expense_note` (bot.py, lines 2671-2681). -/
def process_expense_note (dbRaises : Bool) (rowId uid : ℕ) (d : ExpenseDraft)
    (text : String) : Option (ExpenseWizard × Option (Option ℕ × ExpenseRecord)) :=
  if text = cancelText then some (⟨none, none⟩, none)
  else
    (save_expense dbRaises rowId uid { d with note := some (some text) }).map
      (fun r => (r.1, some r.2))

/-- Dispatch of a message to the expense wizard's handler for the current
FSM state (the `@router.message(AddExpenseStates...)` registrations). -/
def expense_step (dbRaises : Bool) (rowId uid : ℕ) (today : PyDate) (currentYear : ℤ)
    (s : ExpenseState) (d : ExpenseDraft) (text : String) :
    Option (ExpenseWizard × Option (Option ℕ × ExpenseRecord)) :=
  match s with
  | .waiting_for_category => some (process_expense_category d text, none)
  | .waiting_for_name => some (process_expense_name d text, none)
  | .waiting_for_amount => some (process_expense_amount d text, none)
  | .waiting_for_date_choice => some (process_expense_date_choice today d text, none)
  | .waiting_for_date => some (process_expense_date currentYear d text, none)
  | .waiting_for_note_choice => process_expense_note_choice dbRaises rowId uid d text
  | .waiting_for_note => process_expense_note dbRaises rowId uid d text

/-! ## The place wizard (bot.py, lines 1088-1610): the handlers the claims
touch — name entry, free-text coordinates, location-state cancel, and
`save_place` with its per-user cache invalidation. -/

inductive PlaceState where
  | waiting_for_name
  | choosing_from_search
  | waiting_for_type
  | waiting_for_location
deriving DecidableEq, Repr

/-- The draft dictionary `user_place_data[uid]` restricted to the fields
the modelled handlers read or write (`none` = key absent;
`yandex_data` maps to `some none` when the key holds `None`). -/
structure PlaceDraft where
  name : Option String := none
  yandex_data : Option (Option String) := none
  search_results : Option (List String) := none
  search_query : Option String := none
  latitude : Option PyFloat := none
  longitude : Option PyFloat := none
deriving DecidableEq, Repr

structure PlaceWizard where
  session : Option PlaceState
  draft : Option PlaceDraft
deriving DecidableEq, Repr

/-- `process_place_name` (bot.py, lines 1098-1148).  The Yandex search is
an external lookup, passed in as `searchResults` (names only — the
fields of a hit are not read by the paths modelled).  The cancel branch
runs `state.clear()` and answers — it does NOT delete
`user_place_data[uid]`, so the draft entry survives. -/
def process_place_name (searchResults : List String) (d : PlaceDraft) (text : String) :
    PlaceWizard :=
  if text = cancelText then ⟨none, some d⟩
  else if searchResults.isEmpty then
    ⟨some .waiting_for_type,
      some { d with name := some (pyCapitalize text), yandex_data := some none }⟩
  else
    ⟨some .choosing_from_search,
      some { d with search_results := some searchResults, search_query := some text }⟩

/-- The coordinate-parsing part of `process_text_coordinates` (bot.py,
lines 1497-1505): `text.strip().replace(',', ' ')`, whitespace split,
exactly two pieces, each through `float(...)`. -/
def parse_coordinates (text : String) : Option (PyFloat × PyFloat) :=
  match pySplitWs ((pyReplaceChar ⟨pyStrip text.data⟩ ',' ' ').data) with
  | [p0, p1] => do
      let lat ← pyFloat ⟨p0⟩
      let lon ← pyFloat ⟨p1⟩
      pure (lat, lon)
  | _ => none

/-- The range check of `process_text_coordinates` (bot.py, line 1508):
`-90 <= lat <= 90 and -180 <= lon <= 180`. -/
def coordinatesInRange (lat lon : PyFloat) : Bool :=
  lat.geInt (-90) && lat.leInt 90 && lon.geInt (-180) && lon.leInt 180

/-- `process_text_coordinates` (bot.py, lines 1491-1534) up to the
`save_place` call: on the cancel text the handler returns untouched; on a
parse or range failure it answers and stays; on success it stores the
pair and commits (flagged by the boolean).  The commit itself
(`save_place`) is modelled separately. -/
def process_text_coordinates (d : PlaceDraft) (text : String) :
    PlaceWizard × Bool :=
  if text = cancelText then (⟨some .waiting_for_location, some d⟩, false)
  else
    match parse_coordinates text with
    | none => (⟨some .waiting_for_location, some d⟩, false)
    | some (lat, lon) =>
        if coordinatesInRange lat lon then
          (⟨some .waiting_for_location,
            some { d with latitude := some lat, longitude := some lon }⟩, true)
        else (⟨some .waiting_for_location, some d⟩, false)

/-- `process_cancel_location` (bot.py, lines 1536-1541): `state.clear()`
and `user_place_data.pop(uid, None)`.  DEAD CODE for text updates:
`process_text_coordinates` (bot.py, line 1491, bare `F.text` filter) is
registered before it and consumes every text message at the location
state, including the cancel sentinel; nothing in the repository raises
`SkipHandler`, so this handler can never run on a text message. -/
def process_cancel_location (_d : Option PlaceDraft) : PlaceWizard :=
  ⟨none, none⟩

/-- The skip-location button text (bot.py, line 1486). -/
def finishNoLocationText : String := "✅ Завершить без геолокации"

/-- The aiogram-3 dispatch of a TEXT message at
`AddPlaceStates.waiting_for_location` (bot.py, lines 1480-1541):
handlers are tried in registration order and the first whose filters
match consumes the update.  `process_skip_location` (line 1486, exact
text) catches the finish button and just calls `save_place`; otherwise
`process_text_coordinates` (line 1491, bare `F.text`) matches EVERY
text — including the cancel sentinel, on which it plain-returns with no
state change — so `process_cancel_location` (line 1536) is unreachable
for text.  As in `process_text_coordinates`, the wizard pair is the
state just before any `save_place` call and the Bool records whether
`save_place` ran. -/
def place_location_step (d : PlaceDraft) (text : String) : PlaceWizard × Bool :=
  if text = finishNoLocationText then (⟨some .waiting_for_location, some d⟩, true)
  else process_text_coordinates d text

/-- The cache invalidation performed by `save_place` (bot.py, lines
1563-1564): `cache.clear(pattern=f"_{user_id}")`.  `save_place` then
answers, pops the draft and clears the state (lines 1606-1610). -/
def save_place_invalidate (c : SimpleCache) (uid : ℕ) : SimpleCache :=
  c.clear (some ("_" ++ toString uid))

/-! ## The tips wizard (bot.py, lines 3905-3970): the hours and card
handlers, cited by the skip-sentinel and cancel claims. -/

structure TipsDraft where
  hours_worked : Option PyFloat := none
  card : Option PyFloat := none
  netmonet : Option PyFloat := none
  cash : Option PyFloat := none
deriving DecidableEq, Repr

inductive TipsState where
  | waiting_for_hours
  | waiting_for_card
  | waiting_for_netmonet
  | waiting_for_cash
deriving DecidableEq, Repr

structure TipsWizard where
  session : Option TipsState
  draft : Option TipsDraft
deriving DecidableEq, Repr

/-- `process_tips_hours` (bot.py, lines 3916-3941).  Its cancel branch
runs `state.clear()` only — the `user_tips_data[uid]` entry survives.
Hours must parse and be strictly positive. -/
def process_tips_hours (d : TipsDraft) (text : String) : TipsWizard :=
  if text = cancelText then ⟨none, some d⟩
  else
    match pyFloat (pyReplaceChar text ',' '.') with
    | none => ⟨some .waiting_for_hours, some d⟩
    | some hours =>
        if hours.leInt 0 then ⟨some .waiting_for_hours, some d⟩
        else ⟨some .waiting_for_card, some { d with hours_worked := some hours }⟩

/-- `process_tips_card` (bot.py, lines 3943-3970): cancel deletes the
draft; the skip sentinel stores the literal `0` in the `card` field —
the same value an explicit `"0"` input stores. -/
def process_tips_card (d : TipsDraft) (text : String) : TipsWizard :=
  if text = cancelText then ⟨none, none⟩
  else if text = skipText then
    ⟨some .waiting_for_netmonet, some { d with card := some ⟨0, 0⟩ }⟩
  else
    match pyFloat (pyReplaceChar text ',' '.') with
    | none => ⟨some .waiting_for_card, some d⟩
    | some amount =>
        if amount.ltInt 0 then ⟨some .waiting_for_card, some d⟩
        else ⟨some .waiting_for_netmonet, some { d with card := some amount }⟩

/-! ## The wishlist wizard (bot.py, lines 4345-4405): the price step,
a money-amount input with no negative check. -/

inductive WishlistState where
  | waiting_for_name
  | waiting_for_price
  | waiting_for_priority
deriving DecidableEq, Repr

/-- The draft dictionary `user_wishlist_data[uid]` restricted to the
fields the modelled handler touches; the skip sentinel stores `None`
(`some none`) in `price`. -/
structure WishlistDraft where
  name : Option String := none
  price : Option (Option PyFloat) := none
deriving DecidableEq, Repr

structure WishlistWizard where
  session : Option WishlistState
  draft : Option WishlistDraft
deriving DecidableEq, Repr

/-- `process_wishlist_price` (bot.py, lines 4363-4387).  The sentinels
`EMOJI_CANCEL` / `EMOJI_SKIP` are imported from `constants.py`, which is
not among the provided sources; modelled from the spec's cancel/skip
sentinels as the same button texts every in-source keyboard uses.  The
parse is `float(text.replace(',', '.').replace(' ', ''))` — comma to
dot, then spaces removed — and, unlike the expense and tips amount
handlers, there is NO negative check: every parsed value is stored and
the session advances to the priority step; only a `ValueError`
re-prompts in place. -/
def process_wishlist_price (d : WishlistDraft) (text : String) : WishlistWizard :=
  if text = cancelText then ⟨none, none⟩
  else if text = skipText then
    ⟨some .waiting_for_priority, some { d with price := some none }⟩
  else
    match pyFloat (pyRemoveChar (pyReplaceChar text ',' '.') ' ') with
    | none => ⟨some .waiting_for_price, some d⟩
    | some price =>
        ⟨some .waiting_for_priority, some { d with price := some (some price) }⟩

/-! ## Recurring-reminder due computation
(`Database.get_due_reminders`, database.py, lines 1263-1317)

One-shot reminders are selected by a SQL query against the gateway; the
in-process Python part is the recurring filter (lines 1284-1313), which
compares hour and minute of the stored `reminder_datetime` against
"now".  A datetime is reduced to the triple the filter reads
(`weekday()` is 0 = Monday .. 6 = Sunday).

The rows are `aiosqlite.Row` (`row_factory` set at database.py, line
26), i.e. `sqlite3.Row`, which has NO `.get` method.  The first
statement under `if time_matches:` is
`reminder.get('repeat_type', 'none')` (line 1301), so reaching it raises
`AttributeError`; the daily/weekly appends below it (lines 1303-1311)
are unreachable, and the blanket `except` (lines 1315-1317) turns the
raise into a `[]` result for the whole function. -/

structure TimePoint where
  weekday : Fin 7
  hour : ℕ
  minute : ℕ
deriving DecidableEq, Repr

structure Reminder where
  id : ℕ
  dt : TimePoint
  repeat_type : String
deriving DecidableEq, Repr

/-- `time_matches` (database.py, lines 1297-1298): hour and minute of
the stored datetime equal those of "now". -/
def timeMatches (rdt now : TimePoint) : Bool :=
  rdt.hour = now.hour && rdt.minute = now.minute

/-- The `for reminder in recurring_reminders` loop (database.py, lines
1288-1311) over `aiosqlite.Row` rows.  When no reminder time-matches the
loop completes with `filtered_recurring` still empty (`some []` — the
appends are unreachable); the first time-matching reminder reaches
`reminder.get('repeat_type', 'none')` and raises `AttributeError`
(`none`). -/
def recurringLoop (rs : List Reminder) (now : TimePoint) : Option (List Reminder) :=
  match rs with
  | [] => some []
  | r :: rest => if timeMatches r.dt now then none else recurringLoop rest now

namespace Database

/-- `Database.get_due_reminders` (database.py, lines 1263-1317):
`regular` is what the one-shot SQL query returned, `recurring` what the
`repeat_type != 'none'` query returned.  If the recurring loop
completes, the function returns `regular ++ filtered_recurring`; if the
loop raises, the blanket `except` returns `[]`, dropping the one-shot
dues as well. -/
def get_due_reminders (regular recurring : List Reminder) (now : TimePoint) :
    List Reminder :=
  match recurringLoop recurring now with
  | some filtered => regular ++ filtered
  | none => []

end Database

/-! ## Payroll-report tick (`check_and_send_reminders`, bot.py, lines
4570-4621): at 10:00 on the 5th the report covers the 15th..last day of
the previous month; at 10:00 on the 25th it covers the 1st..15th of the
current month. -/

/-- The wall clock as the tick reads it. -/
structure Now where
  year : ℤ
  month : ℤ
  day : ℤ
  hour : ℕ
  minute : ℕ
deriving DecidableEq, Repr

/-- One report's date range and period label, as the strings the code
builds (`f"15.{prev_month:02d}.{prev_year}"` etc.; the year and the
end-day are formatted unpadded, the month is zero-padded). -/
structure PeriodReport where
  start_date : String
  end_date : String
deriving DecidableEq, Repr

/-- The previous month with January rolling back (bot.py, lines
4582-4587). -/
def prevMonthYear (now : Now) : ℤ × ℤ :=
  if now.month = 1 then (12, now.year - 1) else (now.month - 1, now.year)

/-- The last-day table of the tick (bot.py, lines 4590-4595):
31 for months 1,3,5,7,8,10,12; 30 for 4,6,9,11; else 29 iff
`year % 4 == 0 and (year % 100 != 0 or year % 400 == 0)`, 28 otherwise. -/
def lastDayCode (prev_month prev_year : ℤ) : ℤ :=
  if prev_month = 1 ∨ prev_month = 3 ∨ prev_month = 5 ∨ prev_month = 7 ∨
      prev_month = 8 ∨ prev_month = 10 ∨ prev_month = 12 then 31
  else if prev_month = 4 ∨ prev_month = 6 ∨ prev_month = 9 ∨ prev_month = 11 then 30
  else if prev_year % 4 = 0 ∧ (prev_year % 100 ≠ 0 ∨ prev_year % 400 = 0) then 29
  else 28

/-- One iteration of `check_and_send_reminders`'s condition ladder:
`none` when no report fires at this clock reading. -/
def reminderTick (now : Now) : Option PeriodReport :=
  if now.hour = 10 ∧ now.minute = 0 then
    if now.day = 5 then
      let pm := (prevMonthYear now).1
      let py := (prevMonthYear now).2
      let last_day := lastDayCode pm py
      some ⟨"15." ++ pad2 pm ++ "." ++ toString py,
            toString last_day ++ "." ++ pad2 pm ++ "." ++ toString py⟩
    else if now.day = 25 then
      some ⟨"01." ++ pad2 now.month ++ "." ++ toString now.year,
            "15." ++ pad2 now.month ++ "." ++ toString now.year⟩
    else none
  else none

/-! ## Helper lemmas -/

/-- `x.geInt n` is the real comparison `n ≤ x` on the represented value. -/
theorem PyFloat.geInt_iff (x : PyFloat) (n : ℤ) :
    x.geInt n = true ↔ (n : ℚ) ≤ x.toRat := by
  rw [PyFloat.toRat, le_div_iff₀ (by positivity)]
  simp only [PyFloat.geInt, decide_eq_true_eq]
  constructor
  · intro h; exact_mod_cast h
  · intro h; exact_mod_cast h

/-- `x.leInt n` is the real comparison `x ≤ n` on the represented value. -/
theorem PyFloat.leInt_iff (x : PyFloat) (n : ℤ) :
    x.leInt n = true ↔ x.toRat ≤ (n : ℚ) := by
  rw [PyFloat.toRat, div_le_iff₀ (by positivity)]
  simp only [PyFloat.leInt, decide_eq_true_eq]
  constructor
  · intro h; exact_mod_cast h
  · intro h; exact_mod_cast h

/-- `x.ltInt n` is the real comparison `x < n` on the represented value. -/
theorem PyFloat.ltInt_iff (x : PyFloat) (n : ℤ) :
    x.ltInt n = true ↔ x.toRat < (n : ℚ) := by
  rw [PyFloat.toRat, div_lt_iff₀ (by positivity)]
  simp only [PyFloat.ltInt, decide_eq_true_eq]
  constructor
  · intro h; exact_mod_cast h
  · intro h; exact_mod_cast h

/-- The Boolean leap-year test, unfolded to the arithmetic rule. -/
theorem isLeapYear_iff (y : ℤ) :
    isLeapYear y = true ↔ (y % 4 = 0 ∧ (y % 100 ≠ 0 ∨ y % 400 = 0)) := by
  simp [isLeapYear]

/-- The tick's month-length table agrees with the Gregorian calendar on
every real month. -/
theorem lastDayCode_eq_gregorian (m y : ℤ) (h1 : 1 ≤ m) (h2 : m ≤ 12) :
    lastDayCode m y = gregorianDaysInMonth y m := by
  interval_cases m <;>
    simp [lastDayCode, gregorianDaysInMonth, isLeapYear_iff]

end PlacesBot

namespace PlacesBot

/-! ## Claim theorems -/

/-- C1: the claim requires that when the persistence gateway raises on the
commit's insert, the draft for (user, expense) still exists and the
session has not advanced.  The code does the opposite:
`Database.add_expense` swallows the exception and returns `None`, and
`save_expense` then unconditionally clears the FSM session and deletes
the draft — for every completed draft, committing with the gateway
raising still ends with session `none` and draft `none`. -/
theorem c1_gateway_failure_still_clears_draft :
    ∀ (rowId uid : ℕ) (c n : String) (a : PyFloat) (dt : String)
      (note₀ : Option (Option String)),
      Database.add_expense true rowId = none ∧
      save_expense true rowId uid ⟨some c, some n, some a, some dt, note₀⟩ =
        some (⟨none, none⟩, none, ⟨uid, c, n, a, dt, note₀.join⟩) ∧
      process_expense_note_choice true rowId uid ⟨some c, some n, some a, some dt, note₀⟩
          skipText =
        some (⟨none, none⟩, some (none, ⟨uid, c, n, a, dt, none⟩)) := by
  intro rowId uid c n a dt note₀
  exact ⟨rfl, rfl, rfl⟩

/-- C2 counterexample: cancelling the place wizard at its name state
clears the session but leaves the draft entry for (user, place) in the
draft store; and at the location state the cancel text is consumed by
the free-text coordinate handler, which neither clears the session nor
touches the draft — the claim fails at both states. -/
theorem c2_counterexample_cancel_without_discard :
    (process_place_name [] {} cancelText).session = none ∧
    (process_place_name [] {} cancelText).draft = some {} ∧
    (process_place_name [] {} cancelText).draft ≠ none ∧
    place_location_step {} cancelText = (⟨some .waiting_for_location, some {}⟩, false) := by
  exact ⟨rfl, rfl, by decide, rfl⟩

/-- C2 amended: in the expense wizard, cancel at any state clears the
session and discards the draft, and the tips card handler does the
same.  The original claim fails elsewhere in two ways: the place
wizard's name handler and the tips hours handler clear the session but
leave the draft entry present; and at the place wizard's location state
the cancel text is consumed by `process_text_coordinates` (registered
before the dedicated cancel handler, which is unreachable for text), so
cancel neither ends the session nor discards the draft — the wizard
just re-prompts. -/
theorem c2_cancel_behavior_by_state :
    (∀ (dbR : Bool) (rowId uid : ℕ) (today : PyDate) (cy : ℤ)
        (s : ExpenseState) (d : ExpenseDraft),
        expense_step dbR rowId uid today cy s d cancelText = some (⟨none, none⟩, none)) ∧
    (∀ (res : List String) (d : PlaceDraft),
        process_place_name res d cancelText = ⟨none, some d⟩) ∧
    (∀ d : TipsDraft, process_tips_hours d cancelText = ⟨none, some d⟩) ∧
    (∀ d : TipsDraft, process_tips_card d cancelText = ⟨none, none⟩) ∧
    (∀ d : PlaceDraft,
        place_location_step d cancelText = (⟨some .waiting_for_location, some d⟩, false)) := by
  refine ⟨fun dbR rowId uid today cy s d => ?_,
    fun res d => rfl, fun d => rfl, fun d => rfl, fun d => rfl⟩
  cases s <;> rfl

/-- C3 counterexample: at the optional tips "card" step the skip sentinel
stores the plain default `0` — the very same draft the explicit input
`"0"` produces — so the stored value is not an explicit absence
distinguishable from a default. -/
theorem c3_counterexample_tips_skip_stores_default_zero :
    (process_tips_card {} skipText).draft = some { card := some ⟨0, 0⟩ } ∧
    process_tips_card {} skipText = process_tips_card {} "0" := by
  exact ⟨rfl, rfl⟩

/-- C3 amended: the expense wizard's optional note step does store an
explicit absence on skip — the committed record's `note` is `None`
(`none`), distinguishable from the empty string — while the tips
wizard's optional money steps store the default `0`, indistinguishable
from an explicitly entered `"0"`. -/
theorem c3_skip_absence_for_note_but_default_zero_for_tips :
    (∀ (dbR : Bool) (rowId uid : ℕ) (c n : String) (a : PyFloat) (dt : String)
        (note₀ : Option (Option String)),
        process_expense_note_choice dbR rowId uid ⟨some c, some n, some a, some dt, note₀⟩
            skipText =
          some (⟨none, none⟩,
            some (Database.add_expense dbR rowId, ⟨uid, c, n, a, dt, none⟩)) ∧
        (none : Option String) ≠ some "") ∧
    (∀ d : TipsDraft,
        process_tips_card d skipText =
          ⟨some .waiting_for_netmonet, some { d with card := some ⟨0, 0⟩ }⟩ ∧
        process_tips_card d "0" =
          ⟨some .waiting_for_netmonet, some { d with card := some ⟨0, 0⟩ }⟩) := by
  exact ⟨fun dbR rowId uid c n a dt note₀ => ⟨rfl, by decide⟩, fun d => ⟨rfl, rfl⟩⟩

/-- C4 counterexample: the wishlist price step is a money-amount input
("Введите цену (в рублях)") with no negative check — `"-3"` is accepted,
the negative value −3 is stored in the draft, and the session advances
to the priority step, falsifying "rejected with the session remaining
in the current state and the draft unchanged". -/
theorem c4_counterexample_wishlist_accepts_negative_price :
    process_wishlist_price {} "-3" =
      ⟨some .waiting_for_priority, some { price := some (some ⟨-3, 0⟩) }⟩ ∧
    (⟨-3, 0⟩ : PyFloat).ltInt 0 = true ∧
    WishlistState.waiting_for_priority ≠ WishlistState.waiting_for_price := by
  exact ⟨rfl, rfl, by decide⟩

/-- C4 amended: at every money-amount step `"12,5"` and `"12.5"` parse to
the same value (the comma is mapped to a dot before `float`); the
expense amount and tips amount steps reject `"-3"`, re-prompting the
same state with the draft untouched, but the wishlist price step
performs no negative check — `"-3"` is stored and the session
advances. -/
theorem c4_money_steps_comma_dot_and_negatives :
    (∀ d : ExpenseDraft, process_expense_amount d "12,5" = process_expense_amount d "12.5") ∧
    (∀ d : ExpenseDraft, process_expense_amount d "12.5" =
        ⟨some .waiting_for_date_choice, some { d with amount := some ⟨125, 1⟩ }⟩) ∧
    (⟨125, 1⟩ : PyFloat).toRat = 25 / 2 ∧
    (∀ d : ExpenseDraft, process_expense_amount d "-3" = ⟨some .waiting_for_amount, some d⟩) ∧
    (∀ d : TipsDraft, process_tips_card d "12,5" = process_tips_card d "12.5") ∧
    (∀ d : TipsDraft, process_tips_card d "-3" = ⟨some .waiting_for_card, some d⟩) ∧
    (∀ d : WishlistDraft,
        process_wishlist_price d "12,5" = process_wishlist_price d "12.5") ∧
    (∀ d : WishlistDraft, process_wishlist_price d "-3" =
        ⟨some .waiting_for_priority, some { d with price := some (some ⟨-3, 0⟩) }⟩) := by
  refine ⟨fun d => rfl, fun d => rfl, by norm_num [PyFloat.toRat], fun d => rfl,
    fun d => rfl, fun d => rfl, fun d => rfl, fun d => rfl⟩

/-- C5: free-text date entry accepts "29.02.2024" (leap year) and rejects
"29.02.2023" and "31.02.2024" because no concrete calendar date can be
constructed from them (the session stays at the date state and the draft
is untouched); "15.3" is accepted with the current year substituted and
stored. -/
theorem c5_date_construction (y : ℤ) (h1 : 1 ≤ y) (h2 : y ≤ 9999) (d : ExpenseDraft) :
    parse_ddmm_date y "29.02.2024" = some ⟨2024, 2, 29⟩ ∧
    parse_ddmm_date y "29.02.2023" = none ∧
    parse_ddmm_date y "31.02.2024" = none ∧
    parse_ddmm_date y "15.3" = some ⟨y, 3, 15⟩ ∧
    process_expense_date y d "29.02.2023" = ⟨some .waiting_for_date, some d⟩ ∧
    process_expense_date y d "15.3" =
      ⟨some .waiting_for_note_choice,
        some { d with expense_date := some (formatDate ⟨y, 3, 15⟩) }⟩ := by
  have hmk : parse_ddmm_date y "15.3" = some ⟨y, 3, 15⟩ := by
    show mkDatetime y 3 15 = some ⟨y, 3, 15⟩
    rw [mkDatetime, if_pos]
    exact ⟨h1, h2, by norm_num, by norm_num, by norm_num,
      by norm_num [gregorianDaysInMonth]⟩
  refine ⟨rfl, rfl, rfl, hmk, rfl, ?_⟩
  show (match parse_ddmm_date y "15.3" with
    | none => (⟨some .waiting_for_date, some d⟩ : ExpenseWizard)
    | some dt => ⟨some .waiting_for_note_choice,
        some { d with expense_date := some (formatDate dt) }⟩) =
      ⟨some .waiting_for_note_choice, some { d with expense_date := some (formatDate ⟨y, 3, 15⟩) }⟩
  rw [hmk]

/-- Witness for C5 at the concrete year 2025 and the empty draft. -/
theorem c5_witness :
    (1 : ℤ) ≤ 2025 ∧ (2025 : ℤ) ≤ 9999 ∧
    (parse_ddmm_date 2025 "15.3" = some ⟨2025, 3, 15⟩ ∧
      process_expense_date 2025 {} "15.3" =
        ⟨some .waiting_for_note_choice,
          some { expense_date := some (formatDate ⟨2025, 3, 15⟩) }⟩) :=
  ⟨by norm_num, by norm_num,
    (c5_date_construction 2025 (by norm_num) (by norm_num) {}).2.2.2.1,
    (c5_date_construction 2025 (by norm_num) (by norm_num) {}).2.2.2.2.2⟩

/-- The range check, read back as bounds on the represented values. -/
theorem coordinatesInRange_iff (lat lon : PyFloat) :
    coordinatesInRange lat lon = true ↔
      ((-90 : ℚ) ≤ lat.toRat ∧ lat.toRat ≤ 90 ∧
        (-180 : ℚ) ≤ lon.toRat ∧ lon.toRat ≤ 180) := by
  simp only [coordinatesInRange, Bool.and_eq_true, PyFloat.geInt_iff, PyFloat.leInt_iff,
    and_assoc]
  norm_num

/-- C6: `"55.7558, 37.6173"` and `"55.7558 37.6173"` parse to the same
(latitude, longitude) pair; `"91,200"` is rejected (handler answers and
stays, no save); and for any parsed pair, the handler accepts (commits
via `save_place`, storing the pair) exactly when latitude lies in
[-90, 90] and longitude in [-180, 180]. -/
theorem c6_coordinates_parse_and_range (d : PlaceDraft) (text : String) (lat lon : PyFloat)
    (hparse : parse_coordinates text = some (lat, lon)) :
    parse_coordinates "55.7558, 37.6173" = parse_coordinates "55.7558 37.6173" ∧
    parse_coordinates "55.7558, 37.6173" = some (⟨557558, 4⟩, ⟨376173, 4⟩) ∧
    process_text_coordinates d "91,200" = (⟨some .waiting_for_location, some d⟩, false) ∧
    ((process_text_coordinates d text).2 = true ↔
      ((-90 : ℚ) ≤ lat.toRat ∧ lat.toRat ≤ 90 ∧
        (-180 : ℚ) ≤ lon.toRat ∧ lon.toRat ≤ 180)) ∧
    ((process_text_coordinates d text).2 = true →
      (process_text_coordinates d text).1 =
        ⟨some .waiting_for_location,
          some { d with latitude := some lat, longitude := some lon }⟩) := by
  have hnc : ¬ text = cancelText := by
    intro h
    rw [h] at hparse
    have hnone : parse_coordinates cancelText = none := by decide
    rw [hnone] at hparse
    exact Option.noConfusion hparse
  have hred : process_text_coordinates d text =
      if coordinatesInRange lat lon then
        (⟨some .waiting_for_location,
          some { d with latitude := some lat, longitude := some lon }⟩, true)
      else (⟨some .waiting_for_location, some d⟩, false) := by
    simp only [process_text_coordinates, if_neg hnc, hparse]
  refine ⟨by decide, by decide, rfl, ?_, ?_⟩
  · rw [hred, ← coordinatesInRange_iff lat lon]
    split_ifs with h <;> simp [h]
  · intro h2
    rw [hred] at h2
    by_cases h : coordinatesInRange lat lon
    · rw [hred, if_pos h]
    · rw [if_neg h] at h2
      simp at h2

/-- Witness for C6 at the concrete input `"55.7558, 37.6173"`. -/
theorem c6_witness :
    parse_coordinates "55.7558, 37.6173" = some (⟨557558, 4⟩, ⟨376173, 4⟩) ∧
    ((process_text_coordinates {} "55.7558, 37.6173").2 = true ↔
      ((-90 : ℚ) ≤ (⟨557558, 4⟩ : PyFloat).toRat ∧ (⟨557558, 4⟩ : PyFloat).toRat ≤ 90 ∧
        (-180 : ℚ) ≤ (⟨376173, 4⟩ : PyFloat).toRat ∧ (⟨376173, 4⟩ : PyFloat).toRat ≤ 180)) :=
  ⟨by decide,
    (c6_coordinates_parse_and_range {} "55.7558, 37.6173" ⟨557558, 4⟩ ⟨376173, 4⟩
      (by decide)).2.2.2.1⟩

/-- C7: with `"stats_42" := 7` set at time `t0` (and `"stats_43"` also
live), a read at time `t` returns `7` exactly while `t - t0 < ttl`, is a
miss from `ttl` onwards, and after the read the entry is present exactly
when it had not expired (lazy eviction on the expired read);
`clear "_42"` removes `"stats_42"` but leaves `"stats_43"`. -/
theorem c7_cache_ttl_and_invalidate (ttl t0 s0 t : ℤ) :
    (((((SimpleCache.mk' ttl).set "stats_43" 9 s0).set "stats_42" 7 t0).get "stats_42" t).1
        = some 7 ↔ t - t0 < ttl) ∧
    (((((SimpleCache.mk' ttl).set "stats_43" 9 s0).set "stats_42" 7 t0).get "stats_42" t).1
        = none ↔ ¬ t - t0 < ttl) ∧
    (((((SimpleCache.mk' ttl).set "stats_43" 9 s0).set "stats_42" 7 t0).get "stats_42" t).2.hasKey
        "stats_42" = decide (t - t0 < ttl)) ∧
    ((((SimpleCache.mk' ttl).set "stats_43" 9 s0).set "stats_42" 7 t0).clear
        (some "_42")).hasKey "stats_42" = false ∧
    ((((SimpleCache.mk' ttl).set "stats_43" 9 s0).set "stats_42" 7 t0).clear
        (some "_42")).hasKey "stats_43" = true := by
  have hred : (((SimpleCache.mk' ttl).set "stats_43" 9 s0).set "stats_42" 7 t0).get "stats_42" t
      = if t - t0 < ttl then
          (some 7, ((SimpleCache.mk' ttl).set "stats_43" 9 s0).set "stats_42" 7 t0)
        else (none,
          (((SimpleCache.mk' ttl).set "stats_43" 9 s0).set "stats_42" 7 t0).erase "stats_42") :=
    rfl
  refine ⟨?_, ?_, ?_, rfl, rfl⟩ <;> rw [hred] <;> split_ifs with h <;> simp [h] <;> rfl

/-- C8: the claim describes the daily/weekly logic the loop's own
comments intend, but `reminder.get('repeat_type', 'none')` on an
`aiosqlite.Row` raises the moment any recurring reminder's hour:minute
matches "now", and the blanket `except` returns `[]`.  So the weekly
Monday-09:00 reminder is returned at NO tick at all: at Monday 09:00
(and even Tuesday 09:00) the whole result collapses to `[]`, dropping
the one-shot dues too; at Monday 09:01 the loop completes but recurring
reminders are never appended — every returned reminder is a one-shot. -/
theorem c8_recurring_due_never_fires :
    (∀ regular : List Reminder,
        Database.get_due_reminders regular [⟨1, ⟨0, 9, 0⟩, "weekly"⟩] ⟨0, 9, 0⟩ = []) ∧
    (∀ regular : List Reminder,
        Database.get_due_reminders regular [⟨1, ⟨0, 9, 0⟩, "weekly"⟩] ⟨1, 9, 0⟩ = []) ∧
    (∀ regular : List Reminder,
        Database.get_due_reminders regular [⟨1, ⟨0, 9, 0⟩, "weekly"⟩] ⟨0, 9, 1⟩ = regular) ∧
    (∀ (regular recurring : List Reminder) (now : TimePoint),
        Database.get_due_reminders regular recurring now = regular ∨
        Database.get_due_reminders regular recurring now = []) := by
  have hloop : ∀ (rs : List Reminder) (now : TimePoint),
      recurringLoop rs now = some [] ∨ recurringLoop rs now = none := by
    intro rs now
    induction rs with
    | nil => exact Or.inl rfl
    | cons r rest ih =>
      by_cases h : timeMatches r.dt now
      · exact Or.inr (by simp [recurringLoop, h])
      · simpa [recurringLoop, h] using ih
  refine ⟨fun regular => rfl, fun regular => rfl,
    fun regular => by simp [Database.get_due_reminders, recurringLoop, timeMatches],
    fun regular recurring now => ?_⟩
  rcases hloop recurring now with h | h
  · exact Or.inl (by simp [Database.get_due_reminders, h])
  · exact Or.inr (by simp [Database.get_due_reminders, h])

/-- C9: the 10:00 tick on the 5th reports the range from the 15th to the
last day of the previous month, where the code's month-length table
agrees with the Gregorian calendar (31/30-day months, February 29 iff
leap by the 4/100/400 rule) and January rolls back to December of the
previous year; the tick on the 25th reports the 1st..15th of the current
month; at any other clock reading (e.g. 09:59) nothing fires. -/
theorem c9_payroll_tick (y m : ℤ) (h1 : 1 ≤ m) (h2 : m ≤ 12) :
    reminderTick ⟨y, m, 5, 10, 0⟩ =
      some ⟨"15." ++ pad2 (prevMonthYear ⟨y, m, 5, 10, 0⟩).1 ++ "." ++
              toString (prevMonthYear ⟨y, m, 5, 10, 0⟩).2,
            toString (lastDayCode (prevMonthYear ⟨y, m, 5, 10, 0⟩).1
                (prevMonthYear ⟨y, m, 5, 10, 0⟩).2) ++ "." ++
              pad2 (prevMonthYear ⟨y, m, 5, 10, 0⟩).1 ++ "." ++
              toString (prevMonthYear ⟨y, m, 5, 10, 0⟩).2⟩ ∧
    lastDayCode (prevMonthYear ⟨y, m, 5, 10, 0⟩).1 (prevMonthYear ⟨y, m, 5, 10, 0⟩).2 =
      gregorianDaysInMonth (prevMonthYear ⟨y, m, 5, 10, 0⟩).2
        (prevMonthYear ⟨y, m, 5, 10, 0⟩).1 ∧
    (m = 1 → prevMonthYear ⟨y, m, 5, 10, 0⟩ = (12, y - 1)) ∧
    (m ≠ 1 → prevMonthYear ⟨y, m, 5, 10, 0⟩ = (m - 1, y)) ∧
    reminderTick ⟨y, m, 25, 10, 0⟩ =
      some ⟨"01." ++ pad2 m ++ "." ++ toString y, "15." ++ pad2 m ++ "." ++ toString y⟩ ∧
    (∀ d : ℤ, reminderTick ⟨y, m, d, 9, 59⟩ = none) := by
  have hpm : 1 ≤ (prevMonthYear ⟨y, m, 5, 10, 0⟩).1 ∧ (prevMonthYear ⟨y, m, 5, 10, 0⟩).1 ≤ 12 := by
    by_cases hm : m = 1
    · rw [prevMonthYear, if_pos (by simpa using hm)]
      norm_num
    · rw [prevMonthYear, if_neg (by simpa using hm)]
      constructor <;> simp <;> omega
  refine ⟨?_, lastDayCode_eq_gregorian _ _ hpm.1 hpm.2, ?_, ?_, ?_, fun d => rfl⟩
  · rfl
  · intro hm
    rw [prevMonthYear, if_pos (by simpa using hm)]
  · intro hm
    rw [prevMonthYear, if_neg (by simpa using hm)]
  · rfl

/-- Witness for C9 at March 2025 (previous month February, non-leap). -/
theorem c9_witness :
    (1 : ℤ) ≤ 3 ∧ (3 : ℤ) ≤ 12 ∧
    (reminderTick ⟨2025, 3, 5, 10, 0⟩ =
        some ⟨"15.02.2025", "28.02.2025"⟩ ∧
      lastDayCode 2 2025 = gregorianDaysInMonth 2025 2) := by
  refine ⟨by norm_num, by norm_num, ?_, (c9_payroll_tick 2025 3 (by norm_num) (by norm_num)).2.1⟩
  have h := (c9_payroll_tick 2025 3 (by norm_num) (by norm_num)).1
  simpa using h

/-- `clear(pattern)` keeps a live key exactly when the pattern does not
occur anywhere in it. -/
theorem hasKey_clear_iff (c : SimpleCache) (p k : String) :
    (c.clear (some p)).hasKey k = true ↔
      (c.hasKey k = true ∧ strContainsSub k p = false) := by
  simp only [SimpleCache.hasKey, SimpleCache.lookup, SimpleCache.clear, Option.isSome_map',
    List.find?_isSome]
  constructor
  · rintro ⟨x, hx, hxk⟩
    rw [List.mem_filter] at hx
    have hk : x.1 = k := by simpa using hxk
    refine ⟨⟨x, hx.1, hxk⟩, ?_⟩
    have h2 := hx.2
    rw [hk] at h2
    simpa using h2
  · rintro ⟨⟨x, hx, hxk⟩, hkp⟩
    have hk : x.1 = k := by simpa using hxk
    exact ⟨x, List.mem_filter.mpr ⟨hx, by simp [hk, hkp]⟩, hxk⟩

/-- C10: cache invalidation matches by unanchored substring — a live key
survives `clear(p)` iff `p` occurs nowhere in it; consequently
`save_place`'s per-user pattern `"_4"` (user id 4) also removes user
42's entry `"stats_42"` (while an entry like `"stats_5"` survives). -/
theorem c10_invalidation_by_substring (c : SimpleCache) (p k : String) :
    ((c.clear (some p)).hasKey k = true ↔
      (c.hasKey k = true ∧ strContainsSub k p = false)) ∧
    strContainsSub "stats_42" "_4" = true ∧
    (∀ ttl t0 s0 : ℤ,
      (save_place_invalidate (((SimpleCache.mk' ttl).set "stats_5" 9 s0).set "stats_42" 7 t0)
          4).hasKey "stats_42" = false ∧
      (save_place_invalidate (((SimpleCache.mk' ttl).set "stats_5" 9 s0).set "stats_42" 7 t0)
          4).hasKey "stats_5" = true) :=
  ⟨hasKey_clear_iff c p k, by decide, fun ttl t0 s0 => ⟨rfl, rfl⟩⟩

end PlacesBot
